/-
Verification of the cloud-connector layer of Secure-Media-Processor.

Shallow embedding of src/src/connectors/base_connector.py,
azure_blob_connector.py, onedrive_connector.py and the ConnectorManager
orchestration layer.  Python dictionaries returned by the operations are
modelled as a structure of optional fields; the provider side (blob store,
drive) is modelled as an association list from remote path to stored data;
the local filesystem likewise.  Each operation returns, besides its result
dictionary, the provider-call trace it issued, so that properties of the
form "the provider is never contacted" are statable.
-/
import Mathlib

/-! ## Generic association-list helpers (Python dict / filesystem model) -/

def alGet {α : Type} (l : List (String × α)) (k : String) : Option α :=
  match l with
  | [] => none
  | (k', v) :: rest => if k' = k then some v else alGet rest k

def alSet {α : Type} (l : List (String × α)) (k : String) (v : α) : List (String × α) :=
  match l with
  | [] => [(k, v)]
  | (k', v') :: rest => if k' = k then (k, v) :: rest else (k', v') :: alSet rest k v

def alDel {α : Type} (l : List (String × α)) (k : String) : List (String × α) :=
  match l with
  | [] => []
  | (k', v') :: rest => if k' = k then alDel rest k else (k', v') :: alDel rest k

/-- Python truthiness of an optional string (None and the empty string are falsy). -/
def truthy : Option String → Bool
  | none => false
  | some s => s ≠ ""

/-! ## String primitives

Character-list implementations of the Python string operations the source
uses (split, join, leading-character tests), so that every definition
evaluates inside the kernel. -/

/-- `str.split(sep)` for a one-character separator. -/
def splitOnChar (sep : Char) : List Char → List (List Char)
  | [] => [[]]
  | c :: rest =>
    match splitOnChar sep rest with
    | s :: ss => if c = sep then [] :: s :: ss else (c :: s) :: ss
    | [] => [[c]]

/-- `sep.join(parts)`. -/
def joinWith (sep : String) : List String → String
  | [] => ""
  | [x] => x
  | x :: xs => x ++ sep ++ joinWith sep xs

/-- `s.startswith(c)` for a one-character pattern. -/
def startsWithChar (s : String) (c : Char) : Bool :=
  match s.data with
  | [] => false
  | d :: _ => d = c

/-! ## POSIX path semantics used by `pathlib.Path` on the validation route

`Path(remote_path)` splits only on the forward slash; `.parts` keeps the
root (if any) followed by the non-empty components other than a single dot;
`.as_posix()` re-joins root and components. -/

def pathComponents (s : String) : List String :=
  ((splitOnChar '/' s.data).map String.mk).filter (fun c => c ≠ "" && c ≠ ".")

/-- The POSIX root of a path: exactly two leading slashes give the special
root `//`, one or three-plus give `/`. -/
def pathRoot (s : String) : String :=
  match s.data with
  | '/' :: '/' :: '/' :: _ => "/"
  | '/' :: '/' :: _ => "//"
  | '/' :: _ => "/"
  | _ => ""

def pathParts (s : String) : List String :=
  (if pathRoot s = "" then [] else [pathRoot s]) ++ pathComponents s

def asPosix (s : String) : String :=
  let r := pathRoot s
  let comps := pathComponents s
  if r = "" && comps = [] then "." else r ++ joinWith "/" comps

/-- The dangerous characters rejected by `_validate_remote_path`: NUL, LF, CR. -/
def hasDangerousChar (s : String) : Bool :=
  s.data.any (fun c => c = Char.ofNat 0 || c = '\n' || c = '\r')

/-- Embedding of `CloudConnector._validate_remote_path`
(src/src/connectors/base_connector.py, lines 161-189).  `none` as input
models a non-string argument; the output is `some errorMessage` when the
Python code would raise `ValueError`, `none` when the path is accepted. -/
def validate_remote_path (remote_path : Option String) : Option String :=
  match remote_path with
  | none => some "Remote path must be a non-empty string"
  | some s =>
    if s = "" then some "Remote path must be a non-empty string"
    else
      let normalized := asPosix s
      if startsWithChar normalized '/' || startsWithChar normalized '\\' then
        some ("Absolute paths not allowed: " ++ s)
      else if ".." ∈ pathParts s then
        some ("Path traversal detected: " ++ s)
      else if hasDangerousChar s then
        some ("Invalid characters in path: " ++ s)
      else none

/-! ## Checksum model

`CloudConnector._calculate_checksum` (base_connector.py, lines 191-208)
reads the file in fixed 4096-byte chunks and feeds each chunk to an
incremental SHA-256; feeding chunks incrementally is hashing their
concatenation, so the digest function is modelled as an abstract function
`hash` of the full byte content and the chunked read is embedded
structurally. -/

abbrev Bytes := List Nat

def read4096Chunks (data : Bytes) : List Bytes :=
  if h : data = [] then []
  else data.take 4096 :: read4096Chunks (data.drop 4096)
termination_by data.length
decreasing_by
  simp only [List.length_drop]
  cases data with
  | nil => simp at h
  | cons a l => simp only [List.length_cons]; omega

def calculate_checksum (hash : Bytes → String) (data : Bytes) : String :=
  hash (read4096Chunks data).flatten

/-! ## Result dictionaries and provider-call traces -/

/-- The uniform result dictionary returned by connector operations.
Absent dictionary keys are `none`. -/
structure Result where
  success : Bool
  error : Option String := none
  warning : Option String := none
  remote_path : Option String := none
  local_path : Option String := none
  checksum : Option String := none
  size : Option Nat := none
  timestamp : Option String := none
  checksum_verified : Option Bool := none
  item_id : Option String := none
  web_url : Option String := none
  sharing_url : Option String := none
  sas_url : Option String := none
  expiry : Option String := none
  source_path : Option String := none
  destination_path : Option String := none
  status : Option String := none
  monitor_url : Option String := none
deriving DecidableEq, Repr

/-- Network calls the Azure connector can issue against the provider. -/
inductive AzureCall where
  | uploadBlob (path : String)
  | getProps (path : String)
  | downloadBlob (path : String)
  | deleteBlob (path : String)
  | startCopy (source dest : String)
deriving DecidableEq, Repr

/-- Network calls the OneDrive connector can issue against Microsoft Graph. -/
inductive GraphCall where
  | simplePut (path : String)
  | createSession (path : String)
  | chunkPut (rangeStart rangeEnd total : Nat)
  | getContent (path : String)
  | deleteItem (path : String)
  | getItem (path : String)
  | createLink (path : String)
  | getFolder (path : String)
  | copyItem (path : String)
deriving DecidableEq, Repr

/-! ## Rate limiter

Modelled from the spec: the connectors call `self._check_rate_limit(op)`
before their provider calls, but the method itself (declared on the base
class in the repository) is not among the source files under src/.  Per
spec sections 4.1 and 7, an optionally configured rate limiter is an
injected collaborator exposing a single check-and-possibly-reject
operation keyed by the operation name, and exceeding it raises a distinct
rate-limited condition (caught by the callers as `RuntimeError`).
A limiter is a predicate on operation names; `none` means no limiter is
configured. -/

abbrev RateLimiter := String → Bool

/-- Modelled from the spec: `_check_rate_limit` consults the configured
limiter with the operation name and raises (returns `some message`) when
the limit is exceeded; with no limiter configured it is a no-op. -/
def check_rate_limit (rl : Option RateLimiter) (op : String) : Option String :=
  match rl with
  | none => none
  | some allow => if allow op then none else some ("Rate limit exceeded for " ++ op)

/-! ## Azure Blob Storage connector (src/src/connectors/azure_blob_connector.py)

The provider side is a blob store mapping blob names to content bytes and
string metadata.  The connector state keeps the configuration, the
connected flag inherited from `CloudConnector`, and whether the two live
client handles (`blob_service_client`, `container_client`) are set. -/

structure Blob where
  content : Bytes
  meta : List (String × String)
deriving DecidableEq, Repr

abbrev BlobStore := List (String × Blob)

structure AzureConnector where
  container_name : String
  connection_string : Option String := none
  account_name : Option String := none
  account_key : Option String := none
  sas_token : Option String := none
  rate_limiter : Option RateLimiter := none
  connected : Bool := false
  blob_service_client : Bool := false
  container_client : Bool := false

/-- Embedding of `AzureBlobConnector.__init__` (lines 54-109): the two
authentication-validation checks raise `ValueError` before any network
attempt; a successfully constructed connector starts disconnected with no
client handles. -/
def AzureBlobConnector.init (container_name : String)
    (connection_string account_name account_key sas_token : Option String)
    (rate_limiter : Option RateLimiter) : Except String AzureConnector :=
  if !truthy connection_string && !truthy account_name then
    .error "Must provide either connection_string or account_name (with account_key or sas_token)"
  else if truthy account_name && !(truthy account_key || truthy sas_token) then
    .error "When using account_name, must also provide account_key or sas_token"
  else
    .ok { container_name := container_name,
          connection_string := connection_string,
          account_name := account_name,
          account_key := account_key,
          sas_token := sas_token,
          rate_limiter := rate_limiter,
          connected := false,
          blob_service_client := false,
          container_client := false }

/-- Outcome of the container-existence probe performed inside `connect()`:
the container exists, is absent (and is then auto-created), or the probe
raises an authentication / generic Azure error. -/
inductive AzureConnectOutcome where
  | containerExists
  | containerAbsent
  | authError
  | azureError
deriving DecidableEq, Repr

/-- Embedding of `AzureBlobConnector.connect` (lines 111-164).  The client
handles are assigned inside the `try` block before the existence probe, so
the two `except` branches set `_connected = False` without clearing the
already-assigned handles. -/
def AzureBlobConnector.connect (c : AzureConnector) (outcome : AzureConnectOutcome) :
    Bool × AzureConnector :=
  let c' := { c with blob_service_client := true, container_client := true }
  match outcome with
  | .containerExists => (true, { c' with connected := true })
  | .containerAbsent => (true, { c' with connected := true })
  | .authError => (false, { c' with connected := false })
  | .azureError => (false, { c' with connected := false })

/-- Embedding of `AzureBlobConnector.disconnect` (lines 166-176). -/
def AzureBlobConnector.disconnect (c : AzureConnector) : Bool × AzureConnector :=
  (true, { c with blob_service_client := false, container_client := false, connected := false })

abbrev FS := List (String × Bytes)

/-- Output of an Azure operation: the result dictionary, the provider
store and local filesystem afterwards, and the provider calls issued. -/
structure AzureOut where
  result : Result
  store : BlobStore
  fs : FS
  calls : List AzureCall
deriving Repr

def azureFail (store : BlobStore) (fs : FS) (e : String) : AzureOut :=
  { result := { success := false, error := some e }, store := store, fs := fs, calls := [] }

/-- Embedding of `AzureBlobConnector.upload_file` (lines 198-278).
Checks, in source order: connected flag, remote-path validation, local
file existence, rate limit; then computes the checksum, attaches
checksum / upload-time / original-name metadata and uploads with
overwrite.  `now` stands for the wall-clock ISO timestamp and `hash` for
the SHA-256 digest function. -/
def AzureBlobConnector.upload_file (c : AzureConnector) (store : BlobStore) (fs : FS)
    (file_path : String) (remote_path : Option String)
    (metadata : List (String × String)) (now : String) (hash : Bytes → String) : AzureOut :=
  if !c.connected then azureFail store fs "Not connected to Azure Blob Storage"
  else match validate_remote_path remote_path with
  | some e => azureFail store fs e
  | none =>
    match alGet fs file_path with
    | none => azureFail store fs ("File not found: " ++ file_path)
    | some content =>
      match check_rate_limit c.rate_limiter "upload_file" with
      | some e => azureFail store fs e
      | none =>
        let rp := remote_path.getD ""
        let checksum := calculate_checksum hash content
        let blob_metadata :=
          alSet (alSet (alSet metadata "checksum" checksum) "upload_time" now)
            "original_name" file_path
        { result := { success := true, remote_path := some rp, checksum := some checksum,
                      size := some content.length, timestamp := some now },
          store := alSet store rp { content := content, meta := blob_metadata },
          fs := fs,
          calls := [.uploadBlob rp] }

/-- Embedding of `AzureBlobConnector.download_file` (lines 280-364).
After the connected / validation / rate-limit gates it fetches the blob
properties (raising not-found when the blob is absent), streams the body
to the local path, and, when verification is requested and a stored
checksum exists, recomputes the local checksum; on mismatch the local
file is unlinked and the call fails. -/
def AzureBlobConnector.download_file (c : AzureConnector) (store : BlobStore) (fs : FS)
    (remote_path : Option String) (local_path : String) (verify_checksum : Bool)
    (hash : Bytes → String) : AzureOut :=
  if !c.connected then azureFail store fs "Not connected to Azure Blob Storage"
  else match validate_remote_path remote_path with
  | some e => azureFail store fs e
  | none =>
    match check_rate_limit c.rate_limiter "download_file" with
    | some e => azureFail store fs e
    | none =>
      let rp := remote_path.getD ""
      match alGet store rp with
      | none =>
        { result := { success := false, error := some ("Blob not found: " ++ rp) },
          store := store, fs := fs, calls := [.getProps rp] }
      | some blob =>
        let stored_checksum := alGet blob.meta "checksum"
        let fs' := alSet fs local_path blob.content
        let calls := [AzureCall.getProps rp, AzureCall.downloadBlob rp]
        if verify_checksum && stored_checksum.isSome then
          let local_checksum := calculate_checksum hash blob.content
          if some local_checksum ≠ stored_checksum then
            { result := { success := false, error := some "Checksum verification failed" },
              store := store, fs := alDel fs' local_path, calls := calls }
          else
            { result := { success := true, local_path := some local_path,
                          size := some blob.content.length, checksum_verified := some true },
              store := store, fs := fs', calls := calls }
        else
          { result := { success := true, local_path := some local_path,
                        size := some blob.content.length, checksum_verified := some false },
            store := store, fs := fs', calls := calls }

/-- Embedding of `AzureBlobConnector.delete_file` (lines 366-415).
Deleting an absent blob is reported as success with a warning. -/
def AzureBlobConnector.delete_file (c : AzureConnector) (store : BlobStore) (fs : FS)
    (remote_path : Option String) : AzureOut :=
  if !c.connected then azureFail store fs "Not connected to Azure Blob Storage"
  else match validate_remote_path remote_path with
  | some e => azureFail store fs e
  | none =>
    match check_rate_limit c.rate_limiter "delete_file" with
    | some e => azureFail store fs e
    | none =>
      let rp := remote_path.getD ""
      match alGet store rp with
      | some _ =>
        { result := { success := true, remote_path := some rp },
          store := alDel store rp, fs := fs, calls := [.deleteBlob rp] }
      | none =>
        { result := { success := true, remote_path := some rp,
                      warning := some "Blob did not exist" },
          store := store, fs := fs, calls := [.deleteBlob rp] }

/-- Embedding of `AzureBlobConnector.get_file_metadata` (lines 456-506). -/
def AzureBlobConnector.get_file_metadata (c : AzureConnector) (store : BlobStore) (fs : FS)
    (remote_path : Option String) : AzureOut :=
  if !c.connected then azureFail store fs "Not connected to Azure Blob Storage"
  else match validate_remote_path remote_path with
  | some e => azureFail store fs e
  | none =>
    match check_rate_limit c.rate_limiter "get_file_metadata" with
    | some e => azureFail store fs e
    | none =>
      let rp := remote_path.getD ""
      match alGet store rp with
      | none =>
        { result := { success := false, error := some ("Blob not found: " ++ rp) },
          store := store, fs := fs, calls := [.getProps rp] }
      | some blob =>
        { result := { success := true, size := some blob.content.length },
          store := store, fs := fs, calls := [.getProps rp] }

/-! ## OneDrive connector (src/src/connectors/onedrive_connector.py)

The provider side is a drive mapping (Graph) item paths to content bytes.
HTTP responses that the claims depend on are supplied as oracle
parameters (status codes, response payload fields); the provider calls
issued are recorded in the returned trace. -/

abbrev Drive := List (String × Bytes)

structure OneDriveConnector where
  client_id : String
  client_secret : Option String := none
  tenant_id : String := "common"
  access_token : Option String := none
  refresh_token : Option String := none
  drive_id : Option String := none
  rate_limiter : Option RateLimiter := none
  connected : Bool := false
  session : Bool := false

/-- Embedding of `OneDriveConnector._get_item_path` (lines 232-247): the
remote path with its leading slashes stripped (the Graph URL prefix is
kept implicit in the call trace). -/
def get_item_path (remote_path : String) : String :=
  String.mk (remote_path.data.dropWhile (fun c => c = '/'))

/-- Embedding of `OneDriveConnector.connect` (lines 103-145).  The HTTP
session is created first; authentication runs only when no access token
was supplied; the token is then validated by fetching the drive identity.
`authOk` is the outcome of `_authenticate`, `driveOk` whether the identity
probe returns HTTP 200, and `driveInfoId` the drive id it reports.  In
the non-200 failure branch the code returns False without touching the
connected flag or closing the session. -/
def OneDriveConnector.connect (c : OneDriveConnector)
    (authOk : Bool) (newToken : String) (driveOk : Bool) (driveInfoId : String) :
    Bool × OneDriveConnector :=
  let c := { c with session := true }
  if c.access_token = none && !authOk then (false, c)
  else
    let c := if c.access_token = none then { c with access_token := some newToken } else c
    if driveOk then
      (true, { c with drive_id := some (c.drive_id.getD driveInfoId), connected := true })
    else (false, c)

/-- Embedding of `OneDriveConnector.disconnect` (lines 207-218). -/
def OneDriveConnector.disconnect (c : OneDriveConnector) : Bool × OneDriveConnector :=
  (true, { c with session := false, connected := false })

/-- Output of a OneDrive operation: result dictionary, drive and local
filesystem afterwards, and the Graph calls issued. -/
structure OneOut where
  result : Result
  drive : Drive
  fs : FS
  calls : List GraphCall
deriving Repr

def oneFail (drive : Drive) (fs : FS) (e : String) : OneOut :=
  { result := { success := false, error := some e }, drive := drive, fs := fs, calls := [] }

/-- The 10 MiB chunk size of `_resumable_upload` (line 362). -/
def chunkSize : Nat := 10 * 1024 * 1024

/-- Embedding of the chunk loop of `OneDriveConnector._resumable_upload`
(lines 364-383): starting at `offset`, read up to 10 MiB, send it with a
byte-range header, abort on a status outside 200/201/202, advance.
Returns the chunk calls issued and the failing status, if any.  `status i`
is the HTTP status the provider returns for the i-th chunk. -/
def uploadLoop (status : Nat → Nat) (size offset idx : Nat) : List GraphCall × Option Nat :=
  if h : offset < size then
    let len := min chunkSize (size - offset)
    let chunkEnd := offset + len
    let st := status idx
    let call := GraphCall.chunkPut offset (chunkEnd - 1) size
    if st = 200 || st = 201 || st = 202 then
      let rest := uploadLoop status size chunkEnd (idx + 1)
      (call :: rest.1, rest.2)
    else ([call], some st)
  else ([], none)
termination_by size - offset
decreasing_by simp only [chunkSize]; omega

/-- Embedding of `OneDriveConnector._simple_upload` (lines 298-332): one
direct PUT of the whole content; 200/201 succeed.  `simpleStatus` is the
HTTP status of the PUT, `item_id`/`web_url` the provider response
payload. -/
def OneDriveConnector.simple_upload (drive : Drive) (fs : FS) (content : Bytes)
    (remote_path checksum now : String) (simpleStatus : Nat)
    (item_id web_url : Option String) : OneOut :=
  let ip := get_item_path remote_path
  if simpleStatus = 200 || simpleStatus = 201 then
    { result := { success := true, remote_path := some remote_path, checksum := some checksum,
                  size := some content.length, item_id := item_id, web_url := web_url,
                  timestamp := some now },
      drive := alSet drive ip content, fs := fs, calls := [.simplePut ip] }
  else
    { result := { success := false,
                  error := some ("Upload failed: " ++ toString simpleStatus) },
      drive := drive, fs := fs, calls := [.simplePut ip] }

/-- Embedding of `OneDriveConnector._resumable_upload` (lines 334-393): a
session is created, then the chunk loop runs; any chunk failure aborts
the whole upload; only a fully transferred file reaches the drive. -/
def OneDriveConnector.resumable_upload (drive : Drive) (fs : FS) (content : Bytes)
    (remote_path checksum now : String) (sessionOk : Bool)
    (chunkStatus : Nat → Nat) : OneOut :=
  let ip := get_item_path remote_path
  if !sessionOk then
    { result := { success := false, error := some "Failed to create upload session" },
      drive := drive, fs := fs, calls := [.createSession ip] }
  else
    let run := uploadLoop chunkStatus content.length 0 0
    match run.2 with
    | some st =>
      { result := { success := false,
                    error := some ("Chunk upload failed: " ++ toString st) },
        drive := drive, fs := fs, calls := .createSession ip :: run.1 }
    | none =>
      { result := { success := true, remote_path := some remote_path,
                    checksum := some checksum, size := some content.length,
                    timestamp := some now },
        drive := alSet drive ip content, fs := fs, calls := .createSession ip :: run.1 }

/-- Embedding of `OneDriveConnector.upload_file` (lines 249-296).  Gates
in source order: connected flag, remote-path validation, local file
existence, rate limit; then the size branch at 4 MiB selects simple
versus resumable upload. -/
def OneDriveConnector.upload_file (c : OneDriveConnector) (drive : Drive) (fs : FS)
    (file_path : String) (remote_path : Option String) (now : String)
    (hash : Bytes → String) (simpleStatus : Nat) (item_id web_url : Option String)
    (sessionOk : Bool) (chunkStatus : Nat → Nat) : OneOut :=
  if !c.connected then oneFail drive fs "Not connected to OneDrive"
  else match validate_remote_path remote_path with
  | some e => oneFail drive fs e
  | none =>
    match alGet fs file_path with
    | none => oneFail drive fs ("File not found: " ++ file_path)
    | some content =>
      match check_rate_limit c.rate_limiter "upload_file" with
      | some e => oneFail drive fs e
      | none =>
        let rp := remote_path.getD ""
        let checksum := calculate_checksum hash content
        if content.length < 4 * 1024 * 1024 then
          OneDriveConnector.simple_upload drive fs content rp checksum now
            simpleStatus item_id web_url
        else
          OneDriveConnector.resumable_upload drive fs content rp checksum now
            sessionOk chunkStatus

/-- Embedding of `OneDriveConnector.download_file` (lines 395-459).  The
body is streamed to the local path and the local checksum recomputed, but
it is compared against nothing: the result merely echoes the
`verify_checksum` flag in `checksum_verified`. -/
def OneDriveConnector.download_file (c : OneDriveConnector) (drive : Drive) (fs : FS)
    (remote_path : Option String) (local_path : String) (verify_checksum : Bool)
    (hash : Bytes → String) : OneOut :=
  if !c.connected then oneFail drive fs "Not connected to OneDrive"
  else match validate_remote_path remote_path with
  | some e => oneFail drive fs e
  | none =>
    match check_rate_limit c.rate_limiter "download_file" with
    | some e => oneFail drive fs e
    | none =>
      let rp := remote_path.getD ""
      let ip := get_item_path rp
      match alGet drive ip with
      | some content =>
        let fs' := alSet fs local_path content
        let local_checksum := calculate_checksum hash content
        { result := { success := true, local_path := some local_path,
                      size := some content.length, checksum := some local_checksum,
                      checksum_verified := some verify_checksum },
          drive := drive, fs := fs', calls := [.getContent ip] }
      | none =>
        { result := { success := false, error := some ("File not found: " ++ rp) },
          drive := drive, fs := fs, calls := [.getContent ip] }

/-- Embedding of `OneDriveConnector.delete_file` (lines 461-504).  HTTP
404 from the provider is reported as success with a warning. -/
def OneDriveConnector.delete_file (c : OneDriveConnector) (drive : Drive) (fs : FS)
    (remote_path : Option String) : OneOut :=
  if !c.connected then oneFail drive fs "Not connected to OneDrive"
  else match validate_remote_path remote_path with
  | some e => oneFail drive fs e
  | none =>
    match check_rate_limit c.rate_limiter "delete_file" with
    | some e => oneFail drive fs e
    | none =>
      let rp := remote_path.getD ""
      let ip := get_item_path rp
      match alGet drive ip with
      | some _ =>
        { result := { success := true, remote_path := some rp },
          drive := alDel drive ip, fs := fs, calls := [.deleteItem ip] }
      | none =>
        { result := { success := true, remote_path := some rp,
                      warning := some "File did not exist" },
          drive := drive, fs := fs, calls := [.deleteItem ip] }

/-- Embedding of `OneDriveConnector.get_file_metadata` (lines 569-614).
Unlike upload/download/delete/list, this operation performs no
`_check_rate_limit` call: after the connected and validation gates it
goes straight to the provider. -/
def OneDriveConnector.get_file_metadata (c : OneDriveConnector) (drive : Drive) (fs : FS)
    (remote_path : Option String) : OneOut :=
  if !c.connected then oneFail drive fs "Not connected to OneDrive"
  else match validate_remote_path remote_path with
  | some e => oneFail drive fs e
  | none =>
    let rp := remote_path.getD ""
    let ip := get_item_path rp
    match alGet drive ip with
    | some content =>
      { result := { success := true, size := some content.length },
        drive := drive, fs := fs, calls := [.getItem ip] }
    | none =>
      { result := { success := false, error := some ("File not found: " ++ rp) },
        drive := drive, fs := fs, calls := [.getItem ip] }

/-- Embedding of `OneDriveConnector.create_sharing_link` (lines 616-667).
The only gate is the connected flag: the remote path is not validated and
no rate-limit check is made before the provider call.  `linkOk` is
whether the provider returns 200/201 and `linkUrl` the link it reports. -/
def OneDriveConnector.create_sharing_link (c : OneDriveConnector) (drive : Drive) (fs : FS)
    (remote_path : String) (link_type : String) (linkOk : Bool) (linkUrl : String) : OneOut :=
  if !c.connected then oneFail drive fs "Not connected to OneDrive"
  else
    let ip := get_item_path remote_path
    if linkOk then
      { result := { success := true, sharing_url := some linkUrl },
        drive := drive, fs := fs, calls := [.createLink ip] }
    else
      { result := { success := false, error := some "Failed to create link" },
        drive := drive, fs := fs, calls := [.createLink ip] }

/-- `str(PurePosixPath(s).parent)`, used by `copy_file` for the
destination folder. -/
def posixParentStr (s : String) : String :=
  let r := pathRoot s
  let comps := pathComponents s
  match comps.dropLast with
  | [] => if r = "" then "." else r
  | ps => r ++ joinWith "/" ps

/-- Embedding of `OneDriveConnector.copy_file` (lines 669-736).  The only
gate is the connected flag: neither path is validated and no rate-limit
check is made.  The destination parent folder is resolved first
(`folderOk` its existence), then the asynchronous copy is issued
(`copyOk` whether the provider answers 202, `monitor` the monitor URL). -/
def OneDriveConnector.copy_file (c : OneDriveConnector) (drive : Drive) (fs : FS)
    (source_path destination_path : String) (folderOk : Bool) (copyOk : Bool)
    (monitor : Option String) : OneOut :=
  if !c.connected then oneFail drive fs "Not connected to OneDrive"
  else
    let dest_folder := String.mk ((posixParentStr destination_path).data.dropWhile (fun ch => ch = '/'))
    let folderCall := GraphCall.getFolder (if dest_folder ≠ "" then get_item_path dest_folder else "")
    if !folderOk then
      { result := { success := false, error := some "Destination folder not found" },
        drive := drive, fs := fs, calls := [folderCall] }
    else if copyOk then
      { result := { success := true, source_path := some source_path,
                    destination_path := some destination_path,
                    status := some "in_progress", monitor_url := monitor },
        drive := drive, fs := fs,
        calls := [folderCall, .copyItem (get_item_path source_path)] }
    else
      { result := { success := false, error := some "Copy failed" },
        drive := drive, fs := fs,
        calls := [folderCall, .copyItem (get_item_path source_path)] }

/-! ## Azure extension operations: SAS URL generation and server-side copy -/

/-- `part.split('=', 1)`: split at the first equals sign only; `none`
when the part contains no equals sign and is skipped. -/
def splitEqOnce (part : String) : Option (String × String) :=
  match (splitOnChar '=' part.data).map String.mk with
  | [] => none
  | [_] => none
  | k :: rest => some (k, joinWith "=" rest)

/-- `dict(part.split('=', 1) for part in cs.split(';') if '=' in part)`
from `generate_sas_url` (line 576): later duplicate keys win. -/
def connStringParts (cs : String) : List (String × String) :=
  ((splitOnChar ';' cs.data).map String.mk).foldl
    (fun acc part =>
      match splitEqOnce part with
      | some (k, v) => alSet acc k v
      | none => acc) []

/-- Embedding of `AzureBlobConnector.generate_sas_url` (lines 527-630).
After the connected and validation gates there is no rate-limit check;
the SAS token is computed locally (no provider call), requiring an
account key either directly or parsed from the connection string.
`sasTok` stands for the signature `generate_blob_sas` computes and
`expiryIso` for the computed expiry timestamp. -/
def AzureBlobConnector.generate_sas_url (c : AzureConnector) (store : BlobStore) (fs : FS)
    (remote_path : Option String) (read_only : Bool)
    (sasTok expiryIso : String) : AzureOut :=
  if !c.connected then azureFail store fs "Not connected to Azure Blob Storage"
  else match validate_remote_path remote_path with
  | some e => azureFail store fs e
  | none =>
    if !truthy c.account_key && !truthy c.connection_string then
      azureFail store fs "SAS generation requires account_key or connection_string"
    else
      let rp := remote_path.getD ""
      let acct :=
        if truthy c.connection_string && !truthy c.account_key then
          (alGet (connStringParts (c.connection_string.getD "")) "AccountName",
           alGet (connStringParts (c.connection_string.getD "")) "AccountKey")
        else (c.account_name, c.account_key)
      if !truthy acct.1 || !truthy acct.2 then
        azureFail store fs "Could not extract account credentials for SAS generation"
      else
        { result := { success := true,
                      sas_url := some ("https://" ++ acct.1.getD "" ++
                        ".blob.core.windows.net/" ++ c.container_name ++ "/" ++ rp ++
                        "?" ++ sasTok),
                      expiry := some expiryIso },
          store := store, fs := fs, calls := [] }

/-- Embedding of `AzureBlobConnector.copy_blob` (lines 632-683): both
paths are validated (source first); there is no rate-limit check; the
copy is issued server-side and a missing source surfaces as failure. -/
def AzureBlobConnector.copy_blob (c : AzureConnector) (store : BlobStore) (fs : FS)
    (source_path destination_path : Option String) : AzureOut :=
  if !c.connected then azureFail store fs "Not connected to Azure Blob Storage"
  else match validate_remote_path source_path with
  | some e => azureFail store fs e
  | none =>
    match validate_remote_path destination_path with
    | some e => azureFail store fs e
    | none =>
      let src := source_path.getD ""
      let dst := destination_path.getD ""
      match alGet store src with
      | none =>
        { result := { success := false, error := some ("Source blob not found: " ++ src) },
          store := store, fs := fs, calls := [.startCopy src dst] }
      | some blob =>
        { result := { success := true, source_path := some src,
                      destination_path := some dst },
          store := alSet store dst blob, fs := fs, calls := [.startCopy src dst] }

/-! ## ConnectorManager

Modelled from the spec: `connector_manager.py` is imported by the package
(src/src/connectors/__init__.py line 62) and exercised by
tests/test_connector_manager.py, but its source file is not present under
src/.  The model follows spec section 4.5: a name-to-connector registry
with one active name; `connect_all` attempts connection on every
registered connector independently, converting a raised error into a
False entry, and returns a per-name success map.  Registered connectors
are abstracted to their connection behaviour. -/

inductive ConnectBehaviour where
  | succeeds
  | returnsFalse
  | raises
deriving DecidableEq, Repr

structure MConnector where
  behaviour : ConnectBehaviour
  connected : Bool := false
deriving DecidableEq, Repr

/-- Modelled from the spec: for a registered connector the connect call either
returns True (and the connector is then connected), returns False
(leaving it unconnected, spec section 3: failure leaves state unset), or
raises. -/
def MConnector.connect (c : MConnector) : Except String (Bool × MConnector) :=
  match c.behaviour with
  | .succeeds => .ok (true, { c with connected := true })
  | .returnsFalse => .ok (false, { c with connected := false })
  | .raises => .error "connect raised"

structure ConnectorManager where
  connectors : List (String × MConnector) := []
  active : Option String := none
deriving DecidableEq, Repr

/-- Modelled from the spec (section 4.5): `add` registers or replaces; the
first registered connector becomes active. -/
def ConnectorManager.add_connector (m : ConnectorManager) (name : String)
    (c : MConnector) : ConnectorManager :=
  { connectors := alSet m.connectors name c,
    active := if m.active = none then some name else m.active }

/-- Modelled from the spec (section 4.5): `connect_all` attempts
connection on every registered connector independently and returns a
per-name boolean map; a raised error is caught and recorded as False,
never preventing the attempts on the remaining connectors. -/
def ConnectorManager.connect_all (m : ConnectorManager) :
    List (String × Bool) × ConnectorManager :=
  let attempts := m.connectors.map (fun nc =>
    match nc.2.connect with
    | .ok (b, c') => ((nc.1, b), (nc.1, c'))
    | .error _ => ((nc.1, false), (nc.1, nc.2)))
  (attempts.map Prod.fst, { m with connectors := attempts.map Prod.snd })

/-! ## Helper lemmas on the association-list model -/

theorem alGet_alSet_same {α : Type} (l : List (String × α)) (k : String) (v : α) :
    alGet (alSet l k v) k = some v := by
  induction l with
  | nil => simp [alGet, alSet]
  | cons hd tl ih =>
    obtain ⟨k', v'⟩ := hd
    by_cases h : k' = k
    · simp [alGet, alSet, h]
    · simp [alGet, alSet, h, ih]

theorem alGet_alSet_ne {α : Type} (l : List (String × α)) (k k' : String) (v : α)
    (h : k' ≠ k) : alGet (alSet l k' v) k = alGet l k := by
  induction l with
  | nil => simp [alGet, alSet, h]
  | cons hd tl ih =>
    obtain ⟨k0, v0⟩ := hd
    by_cases h0 : k0 = k'
    · subst h0; simp [alGet, alSet, h]
    · simp only [alSet, if_neg h0]
      by_cases h1 : k0 = k
      · simp [alGet, h1]
      · simp [alGet, h1, ih]

theorem alGet_alDel_same {α : Type} (l : List (String × α)) (k : String) :
    alGet (alDel l k) k = none := by
  induction l with
  | nil => simp [alGet, alDel]
  | cons hd tl ih =>
    obtain ⟨k', v'⟩ := hd
    by_cases h : k' = k
    · simp [alDel, h, ih]
    · simp [alDel, alGet, h, ih]

/-- The 4096-byte chunked read feeds exactly the bytes of the file to the
digest, so `_calculate_checksum` is the digest of the full content. -/
theorem read4096Chunks_flatten (data : Bytes) :
    (read4096Chunks data).flatten = data := by
  induction data using read4096Chunks.induct with
  | case1 => rw [read4096Chunks]; simp
  | case2 d h ih =>
    rw [read4096Chunks]
    simp only [h, dite_false, List.flatten_cons, ih, List.take_append_drop]

theorem calculate_checksum_eq (hash : Bytes → String) (data : Bytes) :
    calculate_checksum hash data = hash data := by
  rw [calculate_checksum, read4096Chunks_flatten]

/-- A failure envelope: success is False and an error string is present. -/
def isFailure (r : Result) : Prop := r.success = false ∧ r.error.isSome = true

/-- The idempotent-delete envelope: success is True with a warning and no error. -/
def isWarnSuccess (r : Result) : Prop :=
  r.success = true ∧ r.warning.isSome = true ∧ r.error = none

/-! ## Chunk-loop lemmas for the resumable upload -/

theorem uploadLoop_none_of_ok (status : Nat → Nat)
    (hall : ∀ i, status i = 200 ∨ status i = 201 ∨ status i = 202) :
    ∀ (d size offset idx : Nat), size - offset ≤ d →
      (uploadLoop status size offset idx).2 = none := by
  intro d
  induction d with
  | zero =>
    intro size offset idx hle
    rw [uploadLoop.eq_def]
    have hnlt : ¬ offset < size := by omega
    simp [hnlt]
  | succ d ih =>
    intro size offset idx hle
    rw [uploadLoop.eq_def]
    by_cases hlt : offset < size
    · have hcs : chunkSize = 10485760 := by norm_num [chunkSize]
      have hokb : (decide (status idx = 200) || decide (status idx = 201) ||
          decide (status idx = 202)) = true := by
        rcases hall idx with h | h | h <;> simp [h]
      simp only [hlt, dif_pos]
      rw [if_pos hokb]
      simpa using ih size (offset + min chunkSize (size - offset)) (idx + 1) (by omega)
    · simp [hlt]

theorem uploadLoop_calls_nil (status : Nat → Nat) (size offset idx : Nat)
    (h : ¬ offset < size) : (uploadLoop status size offset idx).1 = [] := by
  rw [uploadLoop.eq_def]; simp [h]

theorem uploadLoop_some_of_bad (status : Nat → Nat) :
    ∀ (d size offset idx : Nat), size - offset ≤ d →
      ∀ j, offset + j * chunkSize < size →
        ¬ (status (idx + j) = 200 ∨ status (idx + j) = 201 ∨ status (idx + j) = 202) →
        (uploadLoop status size offset idx).2 ≠ none := by
  intro d
  induction d with
  | zero =>
    intro size offset idx hle j hj hbad
    exfalso
    have hoff : offset ≤ offset + j * chunkSize := Nat.le_add_right _ _
    omega
  | succ d ih =>
    intro size offset idx hle j hj hbad
    have hcs : chunkSize = 10485760 := by norm_num [chunkSize]
    have hlt : offset < size :=
      Nat.lt_of_le_of_lt (Nat.le_add_right _ _) hj
    rw [uploadLoop.eq_def]
    simp only [hlt, dif_pos]
    by_cases hok : (status idx = 200 ∨ status idx = 201 ∨ status idx = 202)
    · have hokb : (decide (status idx = 200) || decide (status idx = 201) ||
          decide (status idx = 202)) = true := by
        rcases hok with h | h | h <;> simp [h]
      rw [if_pos hokb]
      cases j with
      | zero => exact absurd (by simpa using hok) (by simpa using hbad)
      | succ j' =>
        obtain ⟨t, ht⟩ : ∃ t, j' * chunkSize = t := ⟨_, rfl⟩
        rw [Nat.succ_mul, ht] at hj
        have heq : idx + (j' + 1) = idx + 1 + j' := by omega
        rw [heq] at hbad
        have harg1 : size - (offset + min chunkSize (size - offset)) ≤ d := by omega
        have harg2 : offset + min chunkSize (size - offset) + j' * chunkSize < size := by
          rw [ht]; omega
        exact ih size (offset + min chunkSize (size - offset)) (idx + 1) harg1 j' harg2 hbad
    · have hokb : (decide (status idx = 200) || decide (status idx = 201) ||
          decide (status idx = 202)) ≠ true := by
        intro hb
        rcases Bool.or_eq_true_iff.mp hb with hb1 | hb2
        · rcases Bool.or_eq_true_iff.mp hb1 with hc1 | hc2
          · exact hok (Or.inl (of_decide_eq_true hc1))
          · exact hok (Or.inr (Or.inl (of_decide_eq_true hc2)))
        · exact hok (Or.inr (Or.inr (of_decide_eq_true hb2)))
      rw [if_neg hokb]
      simp

theorem uploadLoop_calls_shape (status : Nat → Nat) :
    ∀ (d size offset idx : Nat), size - offset ≤ d → offset % chunkSize = 0 →
      ∀ call ∈ (uploadLoop status size offset idx).1,
        ∃ o, call = GraphCall.chunkPut o (min (o + chunkSize) size - 1) size ∧
          o % chunkSize = 0 ∧ o < size := by
  intro d
  induction d with
  | zero =>
    intro size offset idx hle hmod
    have hnlt : ¬ offset < size := by omega
    rw [uploadLoop_calls_nil status size offset idx hnlt]
    intro call hcall
    exact absurd hcall (List.not_mem_nil call)
  | succ d ih =>
    intro size offset idx hle hmod
    have hcs : chunkSize = 10485760 := by norm_num [chunkSize]
    by_cases hlt : offset < size
    · rw [uploadLoop.eq_def]
      simp only [hlt, dif_pos]
      have hend : offset + min chunkSize (size - offset) - 1 =
          min (offset + chunkSize) size - 1 := by omega
      by_cases hok : (decide (status idx = 200) || decide (status idx = 201) ||
          decide (status idx = 202)) = true
      · rw [if_pos hok]
        intro call hcall
        rcases List.mem_cons.mp hcall with hhd | htl
        · refine ⟨offset, ?_, hmod, hlt⟩
          rw [hhd]
          exact congrArg (fun x => GraphCall.chunkPut offset x size) hend
        · by_cases hfit : offset + chunkSize < size
          · exact ih size (offset + min chunkSize (size - offset)) (idx + 1)
              (by omega) (by rw [hcs] at hmod ⊢; omega) call htl
          · have hnil : (uploadLoop status size (offset + min chunkSize (size - offset))
                (idx + 1)).1 = [] :=
              uploadLoop_calls_nil status size _ (idx + 1) (by omega)
            rw [hnil] at htl
            exact absurd htl (List.not_mem_nil call)
      · rw [if_neg hok]
        intro call hcall
        have hhd := List.mem_singleton.mp hcall
        refine ⟨offset, ?_, hmod, hlt⟩
        rw [hhd]
        exact congrArg (fun x => GraphCall.chunkPut offset x size) hend
    · rw [uploadLoop_calls_nil status size offset idx hlt]
      intro call hcall
      exact absurd hcall (List.not_mem_nil call)

/-! ## Claims -/

/-- C10: the remote paths a\..\b and ..\x encode parent-directory
traversal with backslash separators, yet `_validate_remote_path` accepts
them: `pathlib` splits segments on the forward slash only, so the
backslash-delimited dot-dot is not recognised as a path segment, and
every operation passes such a path through to the provider layer (shown
here for delete and metadata on both backends: the provider call is
issued with the path unchanged). -/
theorem backslash_traversal_passes_validation :
    validate_remote_path (some "a\\..\\b") = none ∧
    validate_remote_path (some "..\\x") = none ∧
    (∀ (c : AzureConnector) (store : BlobStore) (fs : FS),
      c.connected = true → check_rate_limit c.rate_limiter "delete_file" = none →
      (AzureBlobConnector.delete_file c store fs (some "a\\..\\b")).calls =
        [AzureCall.deleteBlob "a\\..\\b"]) ∧
    (∀ (c : AzureConnector) (store : BlobStore) (fs : FS),
      c.connected = true → check_rate_limit c.rate_limiter "get_file_metadata" = none →
      (AzureBlobConnector.get_file_metadata c store fs (some "a\\..\\b")).calls =
        [AzureCall.getProps "a\\..\\b"]) ∧
    (∀ (c : OneDriveConnector) (drive : Drive) (fs : FS),
      c.connected = true → check_rate_limit c.rate_limiter "delete_file" = none →
      (OneDriveConnector.delete_file c drive fs (some "a\\..\\b")).calls =
        [GraphCall.deleteItem "a\\..\\b"]) ∧
    (∀ (c : OneDriveConnector) (drive : Drive) (fs : FS),
      c.connected = true →
      (OneDriveConnector.get_file_metadata c drive fs (some "a\\..\\b")).calls =
        [GraphCall.getItem "a\\..\\b"]) := by
  have hv : validate_remote_path (some "a\\..\\b") = none := by decide
  refine ⟨hv, by decide, ?_, ?_, ?_, ?_⟩
  · intro c store fs hc hrl
    simp only [AzureBlobConnector.delete_file, hc, hv, hrl, Bool.not_true,
      Bool.false_eq_true, if_false, Option.getD_some]
    cases h : alGet store "a\\..\\b" <;> simp [h]
  · intro c store fs hc hrl
    simp only [AzureBlobConnector.get_file_metadata, hc, hv, hrl, Bool.not_true,
      Bool.false_eq_true, if_false, Option.getD_some]
    cases h : alGet store "a\\..\\b" <;> simp [h]
  · intro c drive fs hc hrl
    simp only [OneDriveConnector.delete_file, hc, hv, hrl, Bool.not_true,
      Bool.false_eq_true, if_false, Option.getD_some]
    cases h : alGet drive (get_item_path "a\\..\\b") <;> simp [h] <;> decide
  · intro c drive fs hc
    simp only [OneDriveConnector.get_file_metadata, hc, hv, Bool.not_true,
      Bool.false_eq_true, if_false, Option.getD_some]
    cases h : alGet drive (get_item_path "a\\..\\b") <;> simp [h] <;> decide

/-- Concrete connectors and inputs used by the witnesses. -/
def azConn : AzureConnector :=
  { container_name := "medical-data", connection_string := some "cs", connected := true }

def odConn : OneDriveConnector :=
  { client_id := "app", access_token := some "tok", connected := true, session := true }

theorem backslash_traversal_witness :
    azConn.connected = true ∧
    check_rate_limit azConn.rate_limiter "delete_file" = none ∧
    (AzureBlobConnector.delete_file azConn [] [] (some "a\\..\\b")).calls =
      [AzureCall.deleteBlob "a\\..\\b"] :=
  ⟨rfl, rfl, backslash_traversal_passes_validation.2.2.1 azConn [] [] rfl rfl⟩

/-- C5: on both backends, deleting a valid remote path that does not
exist on the provider returns success = True together with a warning and
no error, so delete needs no prior existence check. -/
theorem delete_missing_is_warning_success
    (cA : AzureConnector) (cO : OneDriveConnector) (store : BlobStore) (drive : Drive)
    (fsA fsO : FS) (p : String)
    (hcA : cA.connected = true) (hcO : cO.connected = true)
    (hval : validate_remote_path (some p) = none)
    (hrlA : check_rate_limit cA.rate_limiter "delete_file" = none)
    (hrlO : check_rate_limit cO.rate_limiter "delete_file" = none)
    (hmissA : alGet store p = none)
    (hmissO : alGet drive (get_item_path p) = none) :
    isWarnSuccess (AzureBlobConnector.delete_file cA store fsA (some p)).result ∧
    isWarnSuccess (OneDriveConnector.delete_file cO drive fsO (some p)).result := by
  constructor
  · simp only [AzureBlobConnector.delete_file, hcA, hval, hrlA, Bool.not_true,
      Bool.false_eq_true, if_false, Option.getD_some, hmissA]
    simp [isWarnSuccess]
  · simp only [OneDriveConnector.delete_file, hcO, hval, hrlO, Bool.not_true,
      Bool.false_eq_true, if_false, Option.getD_some, hmissO]
    simp [isWarnSuccess]

theorem delete_missing_witness :
    validate_remote_path (some "ghost.txt") = none ∧
    isWarnSuccess (AzureBlobConnector.delete_file azConn [] [] (some "ghost.txt")).result ∧
    isWarnSuccess (OneDriveConnector.delete_file odConn [] [] (some "ghost.txt")).result :=
  ⟨by decide,
   (delete_missing_is_warning_success azConn odConn [] [] [] [] "ghost.txt"
      rfl rfl (by decide) rfl rfl rfl rfl).1,
   (delete_missing_is_warning_success azConn odConn [] [] [] [] "ghost.txt"
      rfl rfl (by decide) rfl rfl rfl rfl).2⟩

/-- C7: on the blob-storage connector, when verification is requested, a
checksum is stored in the metadata of the blob, and the recomputed digest of
the downloaded content differs from it, the freshly written local file is
unlinked and the call fails — the local path is absent from the final
filesystem. -/
theorem download_checksum_mismatch_removes_file
    (c : AzureConnector) (store : BlobStore) (fs : FS) (p lp stored : String)
    (blob : Blob) (hash : Bytes → String)
    (hc : c.connected = true)
    (hval : validate_remote_path (some p) = none)
    (hrl : check_rate_limit c.rate_limiter "download_file" = none)
    (hstore : alGet store p = some blob)
    (hmeta : alGet blob.meta "checksum" = some stored)
    (hmismatch : calculate_checksum hash blob.content ≠ stored) :
    (AzureBlobConnector.download_file c store fs (some p) lp true hash).result.success = false ∧
    (AzureBlobConnector.download_file c store fs (some p) lp true hash).result.error =
      some "Checksum verification failed" ∧
    alGet (AzureBlobConnector.download_file c store fs (some p) lp true hash).fs lp = none := by
  have hne : some (calculate_checksum hash blob.content) ≠ some stored := by
    intro h; exact hmismatch (Option.some_injective _ h)
  simp only [AzureBlobConnector.download_file, hc, hval, hrl, Bool.not_true,
    Bool.false_eq_true, if_false, Option.getD_some, hstore, hmeta]
  rw [if_pos hne]
  exact ⟨rfl, rfl, alGet_alDel_same _ _⟩

def mismatchStore : BlobStore :=
  [("a.txt", { content := [1], meta := [("checksum", "X")] })]

theorem download_checksum_mismatch_witness :
    validate_remote_path (some "a.txt") = none ∧
    calculate_checksum (fun _ => "Y") [1] ≠ "X" ∧
    ((AzureBlobConnector.download_file azConn mismatchStore [] (some "a.txt") "loc" true
        (fun _ => "Y")).result.success = false ∧
      (AzureBlobConnector.download_file azConn mismatchStore [] (some "a.txt") "loc" true
        (fun _ => "Y")).result.error = some "Checksum verification failed" ∧
      alGet (AzureBlobConnector.download_file azConn mismatchStore [] (some "a.txt") "loc" true
        (fun _ => "Y")).fs "loc" = none) := by
  have hmis : calculate_checksum (fun _ => "Y") [1] ≠ "X" := by
    rw [calculate_checksum_eq]; decide
  exact ⟨by decide, hmis,
    download_checksum_mismatch_removes_file azConn mismatchStore [] "a.txt" "loc" "X"
      { content := [1], meta := [("checksum", "X")] } (fun _ => "Y")
      rfl (by decide) rfl rfl rfl hmis⟩

/-- C4 counterexample: on the OneDrive backend no verification against an
upload-time checksum happens.  A file with digest h1 is uploaded; the
stored bytes are then altered on the provider side; downloading with
verify_checksum = True still succeeds and reports checksum_verified =
True although the downloaded digest h2 differs from the checksum h1
reported by the upload — which the claimed metadata-based verification
would have rejected. -/
theorem onedrive_verification_counterexample :
    (OneDriveConnector.upload_file odConn [] [("f", [1])] "f" (some "r.bin") "t0"
        (fun b => if b = [1] then "h1" else "h2") 201 none none true
        (fun _ => 200)).result.checksum = some "h1" ∧
    (OneDriveConnector.upload_file odConn [] [("f", [1])] "f" (some "r.bin") "t0"
        (fun b => if b = [1] then "h1" else "h2") 201 none none true
        (fun _ => 200)).result.success = true ∧
    (OneDriveConnector.download_file odConn [("r.bin", [2])] [] (some "r.bin") "loc" true
        (fun b => if b = [1] then "h1" else "h2")).result.success = true ∧
    (OneDriveConnector.download_file odConn [("r.bin", [2])] [] (some "r.bin") "loc" true
        (fun b => if b = [1] then "h1" else "h2")).result.checksum_verified = some true ∧
    (OneDriveConnector.download_file odConn [("r.bin", [2])] [] (some "r.bin") "loc" true
        (fun b => if b = [1] then "h1" else "h2")).result.checksum = some "h2" := by
  have h1 : calculate_checksum (fun b => if b = [1] then "h1" else "h2") [1] = "h1" := by
    rw [calculate_checksum_eq]; decide
  have h2 : calculate_checksum (fun b => if b = [1] then "h1" else "h2") [2] = "h2" := by
    rw [calculate_checksum_eq]; decide
  have hval : validate_remote_path (some "r.bin") = none := by decide
  refine ⟨?_, ?_, ?_, ?_, ?_⟩ <;>
    simp [OneDriveConnector.upload_file, OneDriveConnector.download_file,
      OneDriveConnector.simple_upload, odConn, hval, h1, h2, alGet, check_rate_limit,
      get_item_path]

/-- C4 (amended): the round trip with verification holds as claimed on
the blob-storage backend — the upload records the SHA-256 digest in blob
metadata and the verified download returns the identical content, whose
digest equals the upload checksum.  On the OneDrive backend the round
trip also returns the identical content and equal digests for every file
size — below the 4 MiB threshold through the simple upload and at or
above it through a completed resumable session — but only because the
stored bytes come back unchanged: upload records no checksum metadata
and download compares nothing, merely echoing the verify flag in
checksum_verified. -/
theorem roundtrip_checksum_amended
    (cA : AzureConnector) (cO : OneDriveConnector) (store : BlobStore) (drive : Drive)
    (fsA fsO : FS) (fp rp lp now : String) (content : Bytes)
    (m : List (String × String)) (hash : Bytes → String)
    (hcA : cA.connected = true) (hcO : cO.connected = true)
    (hval : validate_remote_path (some rp) = none)
    (hfsA : alGet fsA fp = some content) (hfsO : alGet fsO fp = some content)
    (hruA : check_rate_limit cA.rate_limiter "upload_file" = none)
    (hrdA : check_rate_limit cA.rate_limiter "download_file" = none)
    (hruO : check_rate_limit cO.rate_limiter "upload_file" = none)
    (hrdO : check_rate_limit cO.rate_limiter "download_file" = none) :
    ((AzureBlobConnector.upload_file cA store fsA fp (some rp) m now hash).result.checksum =
        some (calculate_checksum hash content) ∧
      (AzureBlobConnector.download_file cA
          (AzureBlobConnector.upload_file cA store fsA fp (some rp) m now hash).store
          fsA (some rp) lp true hash).result.success = true ∧
      (AzureBlobConnector.download_file cA
          (AzureBlobConnector.upload_file cA store fsA fp (some rp) m now hash).store
          fsA (some rp) lp true hash).result.checksum_verified = some true ∧
      alGet (AzureBlobConnector.download_file cA
          (AzureBlobConnector.upload_file cA store fsA fp (some rp) m now hash).store
          fsA (some rp) lp true hash).fs lp = some content) ∧
    ((OneDriveConnector.upload_file cO drive fsO fp (some rp) now hash 201 none none true
          (fun _ => 200)).result.checksum = some (calculate_checksum hash content) ∧
      (OneDriveConnector.download_file cO
          (OneDriveConnector.upload_file cO drive fsO fp (some rp) now hash 201 none none true
            (fun _ => 200)).drive fsO (some rp) lp true hash).result.success = true ∧
      (OneDriveConnector.download_file cO
          (OneDriveConnector.upload_file cO drive fsO fp (some rp) now hash 201 none none true
            (fun _ => 200)).drive fsO (some rp) lp true hash).result.checksum =
        some (calculate_checksum hash content) ∧
      alGet (OneDriveConnector.download_file cO
          (OneDriveConnector.upload_file cO drive fsO fp (some rp) now hash 201 none none true
            (fun _ => 200)).drive fsO (some rp) lp true hash).fs lp = some content) := by
  constructor
  · simp only [AzureBlobConnector.upload_file, hcA, hval, hfsA, hruA, Bool.not_true,
      Bool.false_eq_true, if_false, Option.getD_some]
    refine ⟨by trivial, ?_⟩
    have hmeta : alGet (alSet (alSet (alSet m "checksum" (calculate_checksum hash content))
        "upload_time" now) "original_name" fp) "checksum" =
        some (calculate_checksum hash content) := by
      rw [alGet_alSet_ne _ _ _ _ (by decide), alGet_alSet_ne _ _ _ _ (by decide),
        alGet_alSet_same]
    simp only [AzureBlobConnector.download_file, hcA, hval, hrdA, Bool.not_true,
      Bool.false_eq_true, if_false, Option.getD_some, alGet_alSet_same, hmeta]
    simp [alGet_alSet_same]
  · have hup :
        (OneDriveConnector.upload_file cO drive fsO fp (some rp) now hash 201 none none true
          (fun _ => 200)).result.checksum = some (calculate_checksum hash content) ∧
        (OneDriveConnector.upload_file cO drive fsO fp (some rp) now hash 201 none none true
          (fun _ => 200)).drive = alSet drive (get_item_path rp) content := by
      simp only [OneDriveConnector.upload_file, hcO, hval, hfsO, hruO, Bool.not_true,
        Bool.false_eq_true, if_false, Option.getD_some]
      by_cases hsize : content.length < 4 * 1024 * 1024
      · rw [if_pos hsize]
        simp [OneDriveConnector.simple_upload]
      · rw [if_neg hsize]
        simp only [OneDriveConnector.resumable_upload, Bool.not_true, Bool.false_eq_true,
          if_false]
        have hnone := uploadLoop_none_of_ok (fun _ => 200) (fun _ => Or.inl rfl)
          content.length content.length 0 0 (by omega)
        constructor
        · split
          · rename_i st2 heq
            rw [hnone] at heq
            exact absurd heq (by simp)
          · rfl
        · split
          · rename_i st2 heq
            rw [hnone] at heq
            exact absurd heq (by simp)
          · rfl
    refine ⟨hup.1, ?_, ?_, ?_⟩ <;>
    · rw [hup.2]
      simp only [OneDriveConnector.download_file, hcO, hval, hrdO, Bool.not_true,
        Bool.false_eq_true, if_false, Option.getD_some, alGet_alSet_same]

theorem roundtrip_checksum_witness :
    validate_remote_path (some "r.bin") = none ∧
    ((AzureBlobConnector.upload_file azConn [] [("f", [1])] "f" (some "r.bin") []
        "t0" (fun _ => "h")).result.checksum = some (calculate_checksum (fun _ => "h") [1]) ∧
      (AzureBlobConnector.download_file azConn
        (AzureBlobConnector.upload_file azConn [] [("f", [1])] "f" (some "r.bin") []
          "t0" (fun _ => "h")).store [("f", [1])] (some "r.bin") "loc" true
        (fun _ => "h")).result.success = true) := by
  have h := roundtrip_checksum_amended azConn odConn [] [] [("f", [1])] [("f", [1])]
    "f" "r.bin" "loc" "t0" [1] [] (fun _ => "h")
    rfl rfl (by decide) rfl rfl rfl rfl rfl rfl
  exact ⟨by decide, h.1.1, h.1.2.1⟩

/-- C1: under every expected failure condition — not connected,
remote-path validation failure (including empty and non-string paths,
modelled as `none`), or remote object not found — the public operations
of both backends return a result dictionary with success = False and an
error string (success = True with a warning for the idempotent delete)
rather than raising: in the embedding every operation is a total function
into the result envelope, all provider not-found outcomes included.  The
only exception observable at this layer is the blob-storage configuration
error raised at construction time, embedded as the `Except.error` results
of `AzureBlobConnector.init`. -/
theorem expected_failures_return_envelopes :
    (∀ (c : AzureConnector) store fs fp rp m now hash, c.connected = false →
      isFailure (AzureBlobConnector.upload_file c store fs fp rp m now hash).result) ∧
    (∀ (c : AzureConnector) store fs fp rp m now hash e, c.connected = true →
      validate_remote_path rp = some e →
      isFailure (AzureBlobConnector.upload_file c store fs fp rp m now hash).result) ∧
    (∀ (c : AzureConnector) store fs rp lp v hash, c.connected = false →
      isFailure (AzureBlobConnector.download_file c store fs rp lp v hash).result) ∧
    (∀ (c : AzureConnector) store fs rp lp v hash e, c.connected = true →
      validate_remote_path rp = some e →
      isFailure (AzureBlobConnector.download_file c store fs rp lp v hash).result) ∧
    (∀ (c : AzureConnector) store fs p lp v hash, c.connected = true →
      validate_remote_path (some p) = none →
      check_rate_limit c.rate_limiter "download_file" = none →
      alGet store p = none →
      isFailure (AzureBlobConnector.download_file c store fs (some p) lp v hash).result) ∧
    (∀ (c : AzureConnector) store fs rp, c.connected = false →
      isFailure (AzureBlobConnector.delete_file c store fs rp).result) ∧
    (∀ (c : AzureConnector) store fs rp e, c.connected = true →
      validate_remote_path rp = some e →
      isFailure (AzureBlobConnector.delete_file c store fs rp).result) ∧
    (∀ (c : AzureConnector) store fs p, c.connected = true →
      validate_remote_path (some p) = none →
      check_rate_limit c.rate_limiter "delete_file" = none →
      alGet store p = none →
      isWarnSuccess (AzureBlobConnector.delete_file c store fs (some p)).result) ∧
    (∀ (c : AzureConnector) store fs rp, c.connected = false →
      isFailure (AzureBlobConnector.get_file_metadata c store fs rp).result) ∧
    (∀ (c : AzureConnector) store fs rp e, c.connected = true →
      validate_remote_path rp = some e →
      isFailure (AzureBlobConnector.get_file_metadata c store fs rp).result) ∧
    (∀ (c : AzureConnector) store fs p, c.connected = true →
      validate_remote_path (some p) = none →
      check_rate_limit c.rate_limiter "get_file_metadata" = none →
      alGet store p = none →
      isFailure (AzureBlobConnector.get_file_metadata c store fs (some p)).result) ∧
    (∀ (c : OneDriveConnector) drive fs fp rp now hash st iid wu so cs,
      c.connected = false →
      isFailure (OneDriveConnector.upload_file c drive fs fp rp now hash st iid wu so cs).result) ∧
    (∀ (c : OneDriveConnector) drive fs fp rp now hash st iid wu so cs e,
      c.connected = true → validate_remote_path rp = some e →
      isFailure (OneDriveConnector.upload_file c drive fs fp rp now hash st iid wu so cs).result) ∧
    (∀ (c : OneDriveConnector) drive fs rp lp v hash, c.connected = false →
      isFailure (OneDriveConnector.download_file c drive fs rp lp v hash).result) ∧
    (∀ (c : OneDriveConnector) drive fs rp lp v hash e, c.connected = true →
      validate_remote_path rp = some e →
      isFailure (OneDriveConnector.download_file c drive fs rp lp v hash).result) ∧
    (∀ (c : OneDriveConnector) drive fs p lp v hash, c.connected = true →
      validate_remote_path (some p) = none →
      check_rate_limit c.rate_limiter "download_file" = none →
      alGet drive (get_item_path p) = none →
      isFailure (OneDriveConnector.download_file c drive fs (some p) lp v hash).result) ∧
    (∀ (c : OneDriveConnector) drive fs rp, c.connected = false →
      isFailure (OneDriveConnector.delete_file c drive fs rp).result) ∧
    (∀ (c : OneDriveConnector) drive fs rp e, c.connected = true →
      validate_remote_path rp = some e →
      isFailure (OneDriveConnector.delete_file c drive fs rp).result) ∧
    (∀ (c : OneDriveConnector) drive fs p, c.connected = true →
      validate_remote_path (some p) = none →
      check_rate_limit c.rate_limiter "delete_file" = none →
      alGet drive (get_item_path p) = none →
      isWarnSuccess (OneDriveConnector.delete_file c drive fs (some p)).result) ∧
    (∀ (c : OneDriveConnector) drive fs rp, c.connected = false →
      isFailure (OneDriveConnector.get_file_metadata c drive fs rp).result) ∧
    (∀ (c : OneDriveConnector) drive fs rp e, c.connected = true →
      validate_remote_path rp = some e →
      isFailure (OneDriveConnector.get_file_metadata c drive fs rp).result) ∧
    (∀ (c : OneDriveConnector) drive fs p, c.connected = true →
      validate_remote_path (some p) = none →
      alGet drive (get_item_path p) = none →
      isFailure (OneDriveConnector.get_file_metadata c drive fs (some p)).result) ∧
    (∀ cn ak st rl, AzureBlobConnector.init cn none none ak st rl =
      Except.error "Must provide either connection_string or account_name (with account_key or sas_token)") ∧
    (∀ cn an rl, an ≠ "" → AzureBlobConnector.init cn none (some an) none none rl =
      Except.error "When using account_name, must also provide account_key or sas_token") := by
  refine ⟨?_, ?_, ?_, ?_, ?_, ?_, ?_, ?_, ?_, ?_, ?_, ?_, ?_, ?_, ?_, ?_, ?_, ?_, ?_,
    ?_, ?_, ?_, ?_, ?_⟩
  · intro c store fs fp rp m now hash hc
    simp [AzureBlobConnector.upload_file, hc, azureFail, isFailure]
  · intro c store fs fp rp m now hash e hc hval
    simp [AzureBlobConnector.upload_file, hc, hval, azureFail, isFailure]
  · intro c store fs rp lp v hash hc
    simp [AzureBlobConnector.download_file, hc, azureFail, isFailure]
  · intro c store fs rp lp v hash e hc hval
    simp [AzureBlobConnector.download_file, hc, hval, azureFail, isFailure]
  · intro c store fs p lp v hash hc hval hrl hmiss
    simp [AzureBlobConnector.download_file, hc, hval, hrl, hmiss, isFailure]
  · intro c store fs rp hc
    simp [AzureBlobConnector.delete_file, hc, azureFail, isFailure]
  · intro c store fs rp e hc hval
    simp [AzureBlobConnector.delete_file, hc, hval, azureFail, isFailure]
  · intro c store fs p hc hval hrl hmiss
    simp [AzureBlobConnector.delete_file, hc, hval, hrl, hmiss, isWarnSuccess]
  · intro c store fs rp hc
    simp [AzureBlobConnector.get_file_metadata, hc, azureFail, isFailure]
  · intro c store fs rp e hc hval
    simp [AzureBlobConnector.get_file_metadata, hc, hval, azureFail, isFailure]
  · intro c store fs p hc hval hrl hmiss
    simp [AzureBlobConnector.get_file_metadata, hc, hval, hrl, hmiss, isFailure]
  · intro c drive fs fp rp now hash st iid wu so cs hc
    simp [OneDriveConnector.upload_file, hc, oneFail, isFailure]
  · intro c drive fs fp rp now hash st iid wu so cs e hc hval
    simp [OneDriveConnector.upload_file, hc, hval, oneFail, isFailure]
  · intro c drive fs rp lp v hash hc
    simp [OneDriveConnector.download_file, hc, oneFail, isFailure]
  · intro c drive fs rp lp v hash e hc hval
    simp [OneDriveConnector.download_file, hc, hval, oneFail, isFailure]
  · intro c drive fs p lp v hash hc hval hrl hmiss
    simp [OneDriveConnector.download_file, hc, hval, hrl, hmiss, isFailure]
  · intro c drive fs rp hc
    simp [OneDriveConnector.delete_file, hc, oneFail, isFailure]
  · intro c drive fs rp e hc hval
    simp [OneDriveConnector.delete_file, hc, hval, oneFail, isFailure]
  · intro c drive fs p hc hval hrl hmiss
    simp [OneDriveConnector.delete_file, hc, hval, hrl, hmiss, isWarnSuccess]
  · intro c drive fs rp hc
    simp [OneDriveConnector.get_file_metadata, hc, oneFail, isFailure]
  · intro c drive fs rp e hc hval
    simp [OneDriveConnector.get_file_metadata, hc, hval, oneFail, isFailure]
  · intro c drive fs p hc hval hmiss
    simp [OneDriveConnector.get_file_metadata, hc, hval, hmiss, isFailure]
  · intro cn ak st rl
    simp [AzureBlobConnector.init, truthy]
  · intro cn an rl han
    simp [AzureBlobConnector.init, truthy, han]

theorem expected_failures_witness :
    azConn.connected = true ∧
    (validate_remote_path (some "../etc")).isSome = true ∧
    isFailure (AzureBlobConnector.upload_file azConn [] [] "f" (some "../etc")
      [] "t0" (fun _ => "h")).result ∧
    isFailure (OneDriveConnector.get_file_metadata odConn [] [] (some "ghost")).result := by
  have hv : validate_remote_path (some "../etc") = some "Path traversal detected: ../etc" := by
    decide
  refine ⟨rfl, by decide, ?_, ?_⟩
  · exact expected_failures_return_envelopes.2.1 azConn [] [] "f" (some "../etc")
      [] "t0" (fun _ => "h") _ rfl hv
  · exact expected_failures_return_envelopes.2.2.2.2.2.2.2.2.2.2.2.2.2.2.2.2.2.2.2.2.2.1
      odConn [] [] "ghost" rfl (by decide) rfl

/-- C2 counterexample: `create_sharing_link` and `copy_file` on the
OneDrive backend perform no remote-path validation.  With the traversal
path ../x — which `_validate_remote_path` rejects — both operations still
issue their provider calls carrying the path, and succeed. -/
theorem sharing_link_skips_validation_counterexample :
    (validate_remote_path (some "../x")).isSome = true ∧
    (OneDriveConnector.create_sharing_link odConn [] [] "../x" "view" true "u").calls =
      [GraphCall.createLink "../x"] ∧
    (OneDriveConnector.create_sharing_link odConn [] [] "../x" "view" true "u").result.success =
      true ∧
    (OneDriveConnector.copy_file odConn [] [] "../x" "d" true true none).calls =
      [GraphCall.getFolder ".", GraphCall.copyItem "../x"] ∧
    (OneDriveConnector.copy_file odConn [] [] "../x" "d" true true none).result.success =
      true := by
  refine ⟨by decide, ?_, by decide, ?_, by decide⟩ <;>
    simp [OneDriveConnector.create_sharing_link, OneDriveConnector.copy_file, odConn,
      get_item_path, posixParentStr, pathRoot, pathComponents, splitOnChar]

/-- C2 (amended): for every remote path that validation rejects (empty,
non-string, leading slash or backslash, a `..` segment, or an embedded
NUL/CR/LF), the four core operations of both backends and the
blob-storage extensions (SAS generation, in-store copy) return a failure
result carrying the validation message and issue no provider call; the
OneDrive sharing-link and copy extensions are the exception — they do not
validate (see the counterexample). -/
theorem invalid_path_never_reaches_network_amended
    (rp : Option String) (e : String) (hval : validate_remote_path rp = some e) :
    (∀ (c : AzureConnector) store fs fp m now hash, c.connected = true →
      (AzureBlobConnector.upload_file c store fs fp rp m now hash).result.error = some e ∧
      (AzureBlobConnector.upload_file c store fs fp rp m now hash).calls = []) ∧
    (∀ (c : AzureConnector) store fs lp v hash, c.connected = true →
      (AzureBlobConnector.download_file c store fs rp lp v hash).result.error = some e ∧
      (AzureBlobConnector.download_file c store fs rp lp v hash).calls = []) ∧
    (∀ (c : AzureConnector) store fs, c.connected = true →
      (AzureBlobConnector.delete_file c store fs rp).result.error = some e ∧
      (AzureBlobConnector.delete_file c store fs rp).calls = []) ∧
    (∀ (c : AzureConnector) store fs, c.connected = true →
      (AzureBlobConnector.get_file_metadata c store fs rp).result.error = some e ∧
      (AzureBlobConnector.get_file_metadata c store fs rp).calls = []) ∧
    (∀ (c : AzureConnector) store fs ro tok exp, c.connected = true →
      (AzureBlobConnector.generate_sas_url c store fs rp ro tok exp).result.error = some e ∧
      (AzureBlobConnector.generate_sas_url c store fs rp ro tok exp).calls = []) ∧
    (∀ (c : AzureConnector) store fs dst, c.connected = true →
      (AzureBlobConnector.copy_blob c store fs rp dst).result.error = some e ∧
      (AzureBlobConnector.copy_blob c store fs rp dst).calls = []) ∧
    (∀ (c : OneDriveConnector) drive fs fp now hash st iid wu so cs, c.connected = true →
      (OneDriveConnector.upload_file c drive fs fp rp now hash st iid wu so cs).result.error =
        some e ∧
      (OneDriveConnector.upload_file c drive fs fp rp now hash st iid wu so cs).calls = []) ∧
    (∀ (c : OneDriveConnector) drive fs lp v hash, c.connected = true →
      (OneDriveConnector.download_file c drive fs rp lp v hash).result.error = some e ∧
      (OneDriveConnector.download_file c drive fs rp lp v hash).calls = []) ∧
    (∀ (c : OneDriveConnector) drive fs, c.connected = true →
      (OneDriveConnector.delete_file c drive fs rp).result.error = some e ∧
      (OneDriveConnector.delete_file c drive fs rp).calls = []) ∧
    (∀ (c : OneDriveConnector) drive fs, c.connected = true →
      (OneDriveConnector.get_file_metadata c drive fs rp).result.error = some e ∧
      (OneDriveConnector.get_file_metadata c drive fs rp).calls = []) := by
  refine ⟨?_, ?_, ?_, ?_, ?_, ?_, ?_, ?_, ?_, ?_⟩
  · intro c store fs fp m now hash hc
    simp [AzureBlobConnector.upload_file, hc, hval, azureFail]
  · intro c store fs lp v hash hc
    simp [AzureBlobConnector.download_file, hc, hval, azureFail]
  · intro c store fs hc
    simp [AzureBlobConnector.delete_file, hc, hval, azureFail]
  · intro c store fs hc
    simp [AzureBlobConnector.get_file_metadata, hc, hval, azureFail]
  · intro c store fs ro tok exp hc
    simp [AzureBlobConnector.generate_sas_url, hc, hval, azureFail]
  · intro c store fs dst hc
    simp [AzureBlobConnector.copy_blob, hc, hval, azureFail]
  · intro c drive fs fp now hash st iid wu so cs hc
    simp [OneDriveConnector.upload_file, hc, hval, oneFail]
  · intro c drive fs lp v hash hc
    simp [OneDriveConnector.download_file, hc, hval, oneFail]
  · intro c drive fs hc
    simp [OneDriveConnector.delete_file, hc, hval, oneFail]
  · intro c drive fs hc
    simp [OneDriveConnector.get_file_metadata, hc, hval, oneFail]

theorem invalid_path_witness :
    validate_remote_path (some "/abs") = some "Absolute paths not allowed: /abs" ∧
    (AzureBlobConnector.delete_file azConn [] [] (some "/abs")).result.error =
      some "Absolute paths not allowed: /abs" ∧
    (AzureBlobConnector.delete_file azConn [] [] (some "/abs")).calls = [] := by
  have hv : validate_remote_path (some "/abs") = some "Absolute paths not allowed: /abs" := by
    decide
  have h := (invalid_path_never_reaches_network_amended (some "/abs") _ hv).2.2.1 azConn [] [] rfl
  exact ⟨hv, h.1, h.2⟩

/-- Connectors configured with a rate limiter that rejects every
operation, used to exhibit the operations that never consult it. -/
def azRL : AzureConnector :=
  { container_name := "medical-data", connection_string := some "cs", connected := true,
    rate_limiter := some (fun _ => false) }

def odRL : OneDriveConnector :=
  { client_id := "app", access_token := some "tok", connected := true, session := true,
    rate_limiter := some (fun _ => false) }

/-- C3 counterexample: with a configured rate limiter that rejects every
operation, OneDrive `get_file_metadata` still issues its provider call
and returns a plain success — it never consults the limiter — and the
Azure `copy_blob` extension likewise reaches the provider; by contrast
the same limiter stops `upload_file` with the distinct rate-limited
error before any call. -/
theorem rate_limit_skipped_counterexample :
    check_rate_limit odRL.rate_limiter "get_file_metadata" =
      some "Rate limit exceeded for get_file_metadata" ∧
    (OneDriveConnector.get_file_metadata odRL [("a", [0])] [] (some "a")).result.success =
      true ∧
    (OneDriveConnector.get_file_metadata odRL [("a", [0])] [] (some "a")).calls =
      [GraphCall.getItem "a"] ∧
    (AzureBlobConnector.copy_blob azRL [("s", { content := [0], meta := [] })] []
      (some "s") (some "d")).calls = [AzureCall.startCopy "s" "d"] ∧
    (OneDriveConnector.upload_file odRL [] [("f", [1])] "f" (some "r") "t"
      (fun _ => "h") 201 none none true (fun _ => 200)).result.error =
      some "Rate limit exceeded for upload_file" ∧
    (OneDriveConnector.upload_file odRL [] [("f", [1])] "f" (some "r") "t"
      (fun _ => "h") 201 none none true (fun _ => 200)).calls = [] := by
  refine ⟨by decide, ?_, ?_, ?_, ?_, ?_⟩ <;>
    simp [OneDriveConnector.get_file_metadata, AzureBlobConnector.copy_blob,
      OneDriveConnector.upload_file, odRL, azRL, check_rate_limit, get_item_path,
      alGet, oneFail, azureFail] <;> decide

/-- C3 (amended): the operations that do consult the rate limiter —
upload/download/delete on both backends plus blob-storage
`get_file_metadata` — consult it after validation and before their
provider call: a rejecting limiter yields a failure result carrying the
distinct rate-limited message, with no provider call issued.  OneDrive
`get_file_metadata` and the extension operations (sharing link, copy,
SAS) never consult the limiter (see the counterexample). -/
theorem rate_limited_before_provider_call_amended
    (p e : String) (hval : validate_remote_path (some p) = none) :
    (∀ (c : AzureConnector) store fs fp content m now hash, c.connected = true →
      alGet fs fp = some content →
      check_rate_limit c.rate_limiter "upload_file" = some e →
      (AzureBlobConnector.upload_file c store fs fp (some p) m now hash).result.error = some e ∧
      (AzureBlobConnector.upload_file c store fs fp (some p) m now hash).result.success = false ∧
      (AzureBlobConnector.upload_file c store fs fp (some p) m now hash).calls = []) ∧
    (∀ (c : AzureConnector) store fs lp v hash, c.connected = true →
      check_rate_limit c.rate_limiter "download_file" = some e →
      (AzureBlobConnector.download_file c store fs (some p) lp v hash).result.error = some e ∧
      (AzureBlobConnector.download_file c store fs (some p) lp v hash).calls = []) ∧
    (∀ (c : AzureConnector) store fs, c.connected = true →
      check_rate_limit c.rate_limiter "delete_file" = some e →
      (AzureBlobConnector.delete_file c store fs (some p)).result.error = some e ∧
      (AzureBlobConnector.delete_file c store fs (some p)).calls = []) ∧
    (∀ (c : AzureConnector) store fs, c.connected = true →
      check_rate_limit c.rate_limiter "get_file_metadata" = some e →
      (AzureBlobConnector.get_file_metadata c store fs (some p)).result.error = some e ∧
      (AzureBlobConnector.get_file_metadata c store fs (some p)).calls = []) ∧
    (∀ (c : OneDriveConnector) drive fs fp content now hash st iid wu so cs,
      c.connected = true → alGet fs fp = some content →
      check_rate_limit c.rate_limiter "upload_file" = some e →
      (OneDriveConnector.upload_file c drive fs fp (some p) now hash st iid wu so cs).result.error
        = some e ∧
      (OneDriveConnector.upload_file c drive fs fp (some p) now hash st iid wu so cs).calls
        = []) ∧
    (∀ (c : OneDriveConnector) drive fs lp v hash, c.connected = true →
      check_rate_limit c.rate_limiter "download_file" = some e →
      (OneDriveConnector.download_file c drive fs (some p) lp v hash).result.error = some e ∧
      (OneDriveConnector.download_file c drive fs (some p) lp v hash).calls = []) ∧
    (∀ (c : OneDriveConnector) drive fs, c.connected = true →
      check_rate_limit c.rate_limiter "delete_file" = some e →
      (OneDriveConnector.delete_file c drive fs (some p)).result.error = some e ∧
      (OneDriveConnector.delete_file c drive fs (some p)).calls = []) := by
  refine ⟨?_, ?_, ?_, ?_, ?_, ?_, ?_⟩
  · intro c store fs fp content m now hash hc hfs hrl
    simp [AzureBlobConnector.upload_file, hc, hval, hfs, hrl, azureFail]
  · intro c store fs lp v hash hc hrl
    simp [AzureBlobConnector.download_file, hc, hval, hrl, azureFail]
  · intro c store fs hc hrl
    simp [AzureBlobConnector.delete_file, hc, hval, hrl, azureFail]
  · intro c store fs hc hrl
    simp [AzureBlobConnector.get_file_metadata, hc, hval, hrl, azureFail]
  · intro c drive fs fp content now hash st iid wu so cs hc hfs hrl
    simp [OneDriveConnector.upload_file, hc, hval, hfs, hrl, oneFail]
  · intro c drive fs lp v hash hc hrl
    simp [OneDriveConnector.download_file, hc, hval, hrl, oneFail]
  · intro c drive fs hc hrl
    simp [OneDriveConnector.delete_file, hc, hval, hrl, oneFail]

theorem rate_limited_witness :
    check_rate_limit azRL.rate_limiter "delete_file" =
      some "Rate limit exceeded for delete_file" ∧
    (AzureBlobConnector.delete_file azRL [] [] (some "a.txt")).result.error =
      some "Rate limit exceeded for delete_file" ∧
    (AzureBlobConnector.delete_file azRL [] [] (some "a.txt")).calls = [] := by
  have h := (rate_limited_before_provider_call_amended "a.txt"
    "Rate limit exceeded for delete_file" (by decide)).2.2.1 azRL [] [] rfl (by decide)
  exact ⟨by decide, h.1, h.2⟩

/-- Freshly constructed connectors (disconnected, no handles). -/
def azFresh : AzureConnector := { container_name := "medical-data", connection_string := some "cs" }

def odFresh : OneDriveConnector := { client_id := "app" }

/-- C8 counterexample: a failed `connect()` retains live handles.  On the
blob-storage backend the client handles are assigned before the
container probe, so when the probe raises, `connect` returns False with
`_connected` False but both client handles still set; on the OneDrive
backend a failed identity probe likewise leaves the created HTTP session
open. -/
theorem connect_failure_retains_handles_counterexample :
    (AzureBlobConnector.connect azFresh .azureError).1 = false ∧
    (AzureBlobConnector.connect azFresh .azureError).2.connected = false ∧
    (AzureBlobConnector.connect azFresh .azureError).2.blob_service_client = true ∧
    (AzureBlobConnector.connect azFresh .azureError).2.container_client = true ∧
    (OneDriveConnector.connect odFresh true "tok" false "drv").1 = false ∧
    (OneDriveConnector.connect odFresh true "tok" false "drv").2.session = true := by
  refine ⟨rfl, rfl, rfl, rfl, ?_, ?_⟩ <;> decide

/-- C8 (amended): a `connect()` that returns True leaves the connector
connected with its live handle(s) set, and a `connect()` that returns
False leaves `is_connected()` False (on the blob-storage backend always;
on the OneDrive backend when the connector was not already connected) —
but a partially constructed handle may be retained on failure (see the
counterexample).  `disconnect()` from any state returns True, clears the
handles and sets the state to not connected, on both backends. -/
theorem connection_state_amended :
    (∀ (c : AzureConnector) o, (AzureBlobConnector.connect c o).1 = true →
      (AzureBlobConnector.connect c o).2.connected = true ∧
      (AzureBlobConnector.connect c o).2.blob_service_client = true ∧
      (AzureBlobConnector.connect c o).2.container_client = true) ∧
    (∀ (c : AzureConnector) o, (AzureBlobConnector.connect c o).1 = false →
      (AzureBlobConnector.connect c o).2.connected = false) ∧
    (∀ (c : AzureConnector),
      (AzureBlobConnector.disconnect c).1 = true ∧
      (AzureBlobConnector.disconnect c).2.connected = false ∧
      (AzureBlobConnector.disconnect c).2.blob_service_client = false ∧
      (AzureBlobConnector.disconnect c).2.container_client = false) ∧
    (∀ (c : OneDriveConnector) a t d i, (OneDriveConnector.connect c a t d i).1 = true →
      (OneDriveConnector.connect c a t d i).2.connected = true ∧
      (OneDriveConnector.connect c a t d i).2.session = true) ∧
    (∀ (c : OneDriveConnector) a t d i, c.connected = false →
      (OneDriveConnector.connect c a t d i).1 = false →
      (OneDriveConnector.connect c a t d i).2.connected = false) ∧
    (∀ (c : OneDriveConnector),
      (OneDriveConnector.disconnect c).1 = true ∧
      (OneDriveConnector.disconnect c).2.connected = false ∧
      (OneDriveConnector.disconnect c).2.session = false) := by
  refine ⟨?_, ?_, ?_, ?_, ?_, ?_⟩
  · intro c o h
    cases o <;> simp_all [AzureBlobConnector.connect]
  · intro c o h
    cases o <;> simp_all [AzureBlobConnector.connect]
  · intro c
    simp [AzureBlobConnector.disconnect]
  · intro c a t d i h
    simp only [OneDriveConnector.connect] at h ⊢
    split_ifs at h ⊢ <;> simp_all
  · intro c a t d i hc h
    simp only [OneDriveConnector.connect] at h ⊢
    split_ifs at h ⊢ <;> simp_all
  · intro c
    simp [OneDriveConnector.disconnect]

theorem connection_state_witness :
    (AzureBlobConnector.connect azFresh .containerExists).1 = true ∧
    (AzureBlobConnector.connect azFresh .containerExists).2.connected = true ∧
    (AzureBlobConnector.disconnect
      (AzureBlobConnector.connect azFresh .containerExists).2).2.connected = false :=
  ⟨rfl,
   (connection_state_amended.1 azFresh .containerExists rfl).1,
   (connection_state_amended.2.2.1 (AzureBlobConnector.connect azFresh .containerExists).2).2.1⟩

/-- C9: `connect_all` attempts connection on every registered connector
independently and returns a per-name boolean map: registering A (whose
connect succeeds) and B (whose connect returns False or raises) yields
the map [(A, true), (B, false)], with A connected and B not connected
afterwards — the failure of B does not prevent the attempt on A.  Modelled
from the spec (section 4.5), as connector_manager.py is not among the
source files. -/
theorem connect_all_independent (nA nB : String) (cA cB : MConnector)
    (hne : nA ≠ nB) (hA : cA.behaviour = ConnectBehaviour.succeeds)
    (hB : cB.behaviour ≠ ConnectBehaviour.succeeds) (hBc : cB.connected = false) :
    ((ConnectorManager.add_connector (ConnectorManager.add_connector {} nA cA) nB cB).connect_all).1
      = [(nA, true), (nB, false)] ∧
    (alGet ((ConnectorManager.add_connector (ConnectorManager.add_connector {} nA cA)
        nB cB).connect_all).2.connectors nA).map MConnector.connected = some true ∧
    (alGet ((ConnectorManager.add_connector (ConnectorManager.add_connector {} nA cA)
        nB cB).connect_all).2.connectors nB).map MConnector.connected = some false := by
  cases hcb : cB.behaviour with
  | succeeds => exact absurd hcb hB
  | returnsFalse =>
    simp [ConnectorManager.add_connector, ConnectorManager.connect_all, alSet, alGet,
      MConnector.connect, hA, hcb, hne]
  | raises =>
    simp [ConnectorManager.add_connector, ConnectorManager.connect_all, alSet, alGet,
      MConnector.connect, hA, hcb, hne, hBc]

theorem connect_all_witness :
    ("A" : String) ≠ "B" ∧
    ((ConnectorManager.add_connector (ConnectorManager.add_connector {} "A"
        { behaviour := ConnectBehaviour.succeeds })
      "B" { behaviour := ConnectBehaviour.returnsFalse }).connect_all).1
      = [("A", true), ("B", false)] := by
  have h := connect_all_independent "A" "B" { behaviour := ConnectBehaviour.succeeds }
    { behaviour := ConnectBehaviour.returnsFalse } (by decide) rfl (by decide) rfl
  exact ⟨by decide, h.1⟩

/-- C6: OneDrive `upload_file` branches on the 4 MiB threshold — a
smaller file is sent with exactly one direct PUT (the simple upload,
whatever its status); a file at or above the threshold goes through an
upload session followed by chunk PUTs whose byte ranges are exactly the
fixed 10 MiB windows of the file (each range start a multiple of 10 MiB,
each range end min(start + 10 MiB, size) - 1, each range total the file
size); a failed session creation fails the upload with only the session
call made; if every chunk status is 200/201/202 the upload succeeds, and
if any in-range chunk has a failing status the whole upload returns a
failure result — there is no resume. -/
theorem onedrive_upload_branches
    (c : OneDriveConnector) (drive : Drive) (fs : FS) (fp rp now : String)
    (content : Bytes) (hash : Bytes → String) (st : Nat) (iid wu : Option String)
    (sessionOk : Bool) (chunkStatus : Nat → Nat)
    (hc : c.connected = true)
    (hval : validate_remote_path (some rp) = none)
    (hfs : alGet fs fp = some content)
    (hrl : check_rate_limit c.rate_limiter "upload_file" = none) :
    (content.length < 4 * 1024 * 1024 →
      (OneDriveConnector.upload_file c drive fs fp (some rp) now hash st iid wu
        sessionOk chunkStatus).calls = [GraphCall.simplePut (get_item_path rp)]) ∧
    (4 * 1024 * 1024 ≤ content.length →
      (sessionOk = false →
        (OneDriveConnector.upload_file c drive fs fp (some rp) now hash st iid wu
          sessionOk chunkStatus).result.success = false ∧
        (OneDriveConnector.upload_file c drive fs fp (some rp) now hash st iid wu
          sessionOk chunkStatus).calls = [GraphCall.createSession (get_item_path rp)]) ∧
      (sessionOk = true →
        (OneDriveConnector.upload_file c drive fs fp (some rp) now hash st iid wu
          sessionOk chunkStatus).calls.head? =
          some (GraphCall.createSession (get_item_path rp)) ∧
        (∀ o en tot, GraphCall.chunkPut o en tot ∈
            (OneDriveConnector.upload_file c drive fs fp (some rp) now hash st iid wu
              sessionOk chunkStatus).calls →
          o % chunkSize = 0 ∧ en = min (o + chunkSize) content.length - 1 ∧
          tot = content.length ∧ o < content.length) ∧
        ((∀ i, chunkStatus i = 200 ∨ chunkStatus i = 201 ∨ chunkStatus i = 202) →
          (OneDriveConnector.upload_file c drive fs fp (some rp) now hash st iid wu
            sessionOk chunkStatus).result.success = true) ∧
        (∀ j, j * chunkSize < content.length →
          ¬ (chunkStatus j = 200 ∨ chunkStatus j = 201 ∨ chunkStatus j = 202) →
          (OneDriveConnector.upload_file c drive fs fp (some rp) now hash st iid wu
            sessionOk chunkStatus).result.success = false))) := by
  simp only [OneDriveConnector.upload_file, hc, hval, hfs, hrl, Bool.not_true,
    Bool.false_eq_true, if_false, Option.getD_some]
  constructor
  · intro hsmall
    rw [if_pos hsmall]
    simp only [OneDriveConnector.simple_upload]
    split_ifs <;> rfl
  · intro hbig
    have hnlt : ¬ content.length < 4 * 1024 * 1024 := by omega
    rw [if_neg hnlt]
    simp only [OneDriveConnector.resumable_upload]
    constructor
    · intro hsf
      simp [hsf]
    · intro hst2
      simp only [hst2, Bool.not_true, Bool.false_eq_true, if_false]
      refine ⟨?_, ?_, ?_, ?_⟩
      · split <;> rfl
      · intro o en tot hmem
        revert hmem
        split <;>
        · intro hmem
          rcases List.mem_cons.mp hmem with hhd | htl
          · exact absurd hhd (by simp)
          · obtain ⟨o2, heq2, hmod2, hlt2⟩ :=
              uploadLoop_calls_shape chunkStatus content.length content.length 0 0
                (by omega) (by simp) _ htl
            have := GraphCall.chunkPut.injEq o en tot o2
              (min (o2 + chunkSize) content.length - 1) content.length ▸ heq2
            simp only [GraphCall.chunkPut.injEq] at heq2
            obtain ⟨ho, hen, htot⟩ := heq2
            subst ho hen htot
            exact ⟨hmod2, rfl, rfl, hlt2⟩
      · intro hall
        have hnone := uploadLoop_none_of_ok chunkStatus hall content.length
          content.length 0 0 (by omega)
        split
        · rename_i st2 heq
          rw [hnone] at heq
          exact absurd heq (by simp)
        · rfl
      · intro j hjr hbad
        have hsome := uploadLoop_some_of_bad chunkStatus content.length
          content.length 0 0 (by omega) j (by simpa using hjr) (by simpa using hbad)
        split
        · rfl
        · rename_i heq
          exact absurd heq hsome

theorem onedrive_upload_branches_witness :
    ([0] : Bytes).length < 4 * 1024 * 1024 ∧
    (OneDriveConnector.upload_file odConn [] [("f", [0])] "f" (some "r.bin") "t0"
      (fun _ => "h") 201 none none true (fun _ => 200)).calls =
      [GraphCall.simplePut "r.bin"] := by
  have h := onedrive_upload_branches odConn [] [("f", [0])] "f" "r.bin" "t0" [0]
    (fun _ => "h") 201 none none true (fun _ => 200) rfl (by decide) rfl rfl
  exact ⟨by norm_num, (h.1 (by norm_num)).trans (by decide)⟩
